import Mathlib

/-!
Shallow embedding of the namespace/account consistency core of
`go.nhat.io/authenticator` (files `namespace.go`, `account.go`, `totp.go`,
`config.go`), together with proofs settling the frozen claims about it.

Modelling conventions:
* Go errors are values; `fmt.Errorf("...: %w", e)` wraps, `errors.Is`
  traverses wraps (and, for `multierr.Combine`, both members),
  `errors.Unwrap` peels one wrap.  They are embedded as the inductive `Err`.
* The two secret-store backends (`namespaceStorage`, `accountStorage`) and
  the config file are in-memory association lists / a list field of `World`.
  Each storage or file I/O call can fail in Go for external reasons; every
  embedded operation therefore takes one explicit `Option Err` fault
  parameter per underlying I/O call (`none` = the call behaves normally).
* Go is single-threaded here for our purposes: the `configMu` lock and the
  exported wrappers that only take it are noted where they occur; the
  exported function and its lowercase worker are the same Lean function
  whenever the wrapper only adds locking.
-/

namespace Authenticator

/-- Go `otp.TOTPSecret` is a string type. -/
abbrev TOTPSecret := String

/-- Go `otp.NoTOTPSecret`: the no-secret sentinel, the empty secret. -/
def NoTOTPSecret : TOTPSecret := ""

/-- Embedding of Go error values as used in this package:
the sentinel errors, opaque external I/O errors (`io n`),
`fmt.Errorf("msg: %w", e)` wrapping (`wrap msg e`) and
`multierr.Combine e₁ e₂` (`combine`). -/
inductive Err where
  /-- Go `secretstorage.ErrNotFound` -/
  | storeNotFound
  /-- Go `ErrNamespaceNotFound` -/
  | nsNotFound
  /-- Go `ErrNamespaceExists` -/
  | nsExists
  /-- Go `ErrAccountNotFound` -/
  | acctNotFound
  /-- an opaque storage / file-system error from a collaborator -/
  | io (n : Nat)
  /-- the external OTP engine's "no totp secret" condition (spec §4.4) -/
  | noTOTPSecret
  /-- Go `fmt.Errorf(msg ++ ": %w", e)` -/
  | wrap (msg : String) (e : Err)
  /-- Go `multierr.Combine e₁ e₂` -/
  | combine (e₁ e₂ : Err)
deriving Repr, DecidableEq

/-- Go `errors.Is e target`: `e` equals the target or wraps it (multierr
combined errors expose both members to `errors.Is`). -/
def errorIs (e target : Err) : Bool :=
  match e with
  | .wrap m inner => decide (Err.wrap m inner = target) || errorIs inner target
  | .combine a b =>
      decide (Err.combine a b = target) || errorIs a target || errorIs b target
  | e' => decide (e' = target)

/-- Go `errors.Unwrap e` at the call sites of this package: every call site
applies it to a `fmt.Errorf("...: %w", ...)` result, i.e. to a `wrap`;
on a `wrap` it peels the wrap, elsewhere it is never reached (we return
the error unchanged there). -/
def errUnwrap (e : Err) : Err :=
  match e with
  | .wrap _ inner => inner
  | e' => e'

/-- Go `Namespace` record (`namespace.go`): display name and the list of
account names.  JSON marshalling is out of scope. -/
structure Namespace where
  Name : String
  Accounts : List String
deriving Repr, DecidableEq

/-- Go `Account` record (`account.go`).  The Go `Metadata map[string]any`
field is embedded as a finite string map (its values are opaque to the
core; no claim touches it). -/
structure Account where
  Name : String
  TOTPSecret : TOTPSecret
  Issuer : String
  Metadata : List (String × String)
deriving Repr, DecidableEq

/-- A secret-store backend keyed by string (the `service` component is the
constant `serviceName` everywhere, so it is dropped from the key). -/
abbrev Store (α : Type) := List (String × α)

namespace Store

/-- Raw lookup in the backend. -/
def lookup (s : Store α) (k : String) : Option α :=
  (s.find? (fun p => p.1 = k)).map (fun p => p.2)

/-- Raw overwrite in the backend. -/
def put (s : Store α) (k : String) (v : α) : Store α :=
  (k, v) :: s.filter (fun p => p.1 ≠ k)

/-- Raw removal in the backend. -/
def remove (s : Store α) (k : String) : Store α :=
  s.filter (fun p => p.1 ≠ k)

/-- Go `Storage.Get(service, k)`: the injected fault, else the value, else
`secretstorage.ErrNotFound`. -/
def get (s : Store α) (fault : Option Err) (k : String) : Except Err α :=
  match fault with
  | some e => .error e
  | none =>
      match s.lookup k with
      | some v => .ok v
      | none => .error .storeNotFound

/-- Go `Storage.Set(service, k, v)`: the injected fault leaves the backend
unchanged, else the write happens. -/
def set (s : Store α) (fault : Option Err) (k : String) (v : α) :
    Except Err Unit × Store α :=
  match fault with
  | some e => (.error e, s)
  | none => (.ok (), s.put k v)

/-- Go `Storage.Delete(service, k)`: the injected fault leaves the backend
unchanged; deleting an absent key reports `secretstorage.ErrNotFound`. -/
def del (s : Store α) (fault : Option Err) (k : String) :
    Except Err Unit × Store α :=
  match fault with
  | some e => (.error e, s)
  | none =>
      match s.lookup k with
      | some _ => (.ok (), s.remove k)
      | none => (.error .storeNotFound, s)

end Store

/-- The mutable world: the two keyring-backed stores and the contents of
the config file (`config.go`: a missing file reads as the empty list, so
the file is just its `namespaces` list). -/
structure World where
  nsStore : Store Namespace
  acctStore : Store Account
  cfgNamespaces : List String
deriving Repr

/-- Go `loadConfigFile`: injected fault, else the `namespaces` list (a
missing file is the empty list, not an error). -/
def loadConfigFile (w : World) (fault : Option Err) :
    Except Err (List String) :=
  match fault with
  | some e => .error (.wrap "failed to open config file" e)
  | none => .ok w.cfgNamespaces

/-- Go `saveConfigFile`: injected fault leaves the file unchanged, else the
list is persisted. -/
def saveConfigFile (w : World) (fault : Option Err) (nss : List String) :
    Except Err Unit × World :=
  match fault with
  | some e => (.error (.wrap "failed to write config file" e), w)
  | none => (.ok (), { w with cfgNamespaces := nss })

/-- Lexicographic comparison of character sequences by code point (Go
compares strings as byte sequences; on the characters appearing here the
two orders agree, and this one is kernel-computable). -/
def charListLe : List Char → List Char → Bool
  | [], _ => true
  | _ :: _, [] => false
  | a :: as, b :: bs =>
      if a.toNat = b.toNat then charListLe as bs
      else decide (a.toNat < b.toNat)

/-- The lexicographic string order used by Go `slices.Sort` /
`sort.Strings`. -/
def strLe (a b : String) : Prop :=
  charListLe a.data b.data = true

instance : DecidableRel strLe := fun a b =>
  inferInstanceAs (Decidable (charListLe a.data b.data = true))

theorem charListLe_total : ∀ as bs : List Char,
    charListLe as bs = true ∨ charListLe bs as = true := by
  intro as
  induction as with
  | nil => intro bs; left; rfl
  | cons a as ih =>
      intro bs
      cases bs with
      | nil => right; rfl
      | cons b bs =>
          by_cases h : a.toNat = b.toNat
          · rcases ih bs with h' | h'
            · left; simp [charListLe, h, h']
            · right; simp [charListLe, h.symm, h']
          · have hne : b.toNat ≠ a.toNat := fun e => h e.symm
            rcases Nat.lt_or_ge a.toNat b.toNat with hlt | hge
            · left; simp [charListLe, h, hlt]
            · have hlt : b.toNat < a.toNat := Nat.lt_of_le_of_ne hge hne
              right; simp [charListLe, hne, hlt]

theorem charListLe_trans : ∀ as bs cs : List Char,
    charListLe as bs = true → charListLe bs cs = true →
    charListLe as cs = true := by
  intro as
  induction as with
  | nil => intro bs cs h1 h2; rfl
  | cons a as ih =>
      intro bs cs h1 h2
      cases bs with
      | nil => simp [charListLe] at h1
      | cons b bs =>
          cases cs with
          | nil => simp [charListLe] at h2
          | cons c cs =>
              by_cases hab : a.toNat = b.toNat <;>
                by_cases hbc : b.toNat = c.toNat
              · simp only [charListLe, if_pos hab] at h1
                simp only [charListLe, if_pos hbc] at h2
                simp [charListLe, hab.trans hbc]
                exact ih bs cs h1 h2
              · simp only [charListLe, if_pos hab] at h1
                simp [charListLe, hbc] at h2
                have hac : a.toNat < c.toNat := hab ▸ h2
                simp [charListLe, Nat.ne_of_lt hac, hac]
              · simp [charListLe, hab] at h1
                have hac : a.toNat < c.toNat := hbc ▸ h1
                simp [charListLe, Nat.ne_of_lt hac, hac]
              · simp [charListLe, hab] at h1
                simp [charListLe, hbc] at h2
                have hac := Nat.lt_trans h1 h2
                simp [charListLe, Nat.ne_of_lt hac, hac]

theorem charListLe_antisymm : ∀ as bs : List Char,
    charListLe as bs = true → charListLe bs as = true → as = bs := by
  intro as
  induction as with
  | nil =>
      intro bs h1 h2
      cases bs with
      | nil => rfl
      | cons b bs => simp [charListLe] at h2
  | cons a as ih =>
      intro bs h1 h2
      cases bs with
      | nil => simp [charListLe] at h1
      | cons b bs =>
          by_cases hab : a.toNat = b.toNat
          · have hchar : a = b := Char.eq_of_val_eq (UInt32.ext hab)
            simp only [charListLe, if_pos hab] at h1
            have hba : b.toNat = a.toNat := hab.symm
            simp only [charListLe, if_pos hba] at h2
            rw [hchar, ih bs h1 h2]
          · simp [charListLe, hab] at h1
            have hne : b.toNat ≠ a.toNat := fun e => hab e.symm
            simp [charListLe, hne] at h2
            exact absurd (Nat.lt_trans h1 h2) (Nat.lt_irrefl _)

instance : IsTotal String strLe :=
  ⟨fun a b => charListLe_total a.data b.data⟩

instance : IsTrans String strLe :=
  ⟨fun a b c => charListLe_trans a.data b.data c.data⟩

instance : IsAntisymm String strLe :=
  ⟨fun a b h1 h2 => String.ext (charListLe_antisymm a.data b.data h1 h2)⟩

/-- Go `slices.Sort` / `sort.Strings` on a string slice: sort by the
lexicographic string order. -/
def sortStrings (l : List String) : List String :=
  l.insertionSort strLe

/-- Go `getNamespace` (`namespace.go`): storage get, translating the store's
not-found into `ErrNamespaceNotFound`, wrapping either way. -/
def getNamespace (w : World) (fault : Option Err) (id : String) :
    Except Err Namespace :=
  match Store.get w.nsStore fault id with
  | .ok n => .ok n
  | .error e =>
      if errorIs e .storeNotFound then
        .error (.wrap ("failed to get namespace " ++ id) .nsNotFound)
      else
        .error (.wrap ("failed to get namespace " ++ id) e)

/-- Go `GetNamespace`: read-locks and calls `getNamespace`. -/
def GetNamespace (w : World) (fault : Option Err) (id : String) :
    Except Err Namespace :=
  getNamespace w fault id

/-- Go `updateNamespace` (`namespace.go`): unconditional storage set, wrapped
on failure. -/
def updateNamespace (w : World) (fault : Option Err) (id : String)
    (n : Namespace) : Except Err Unit × World :=
  match Store.set w.nsStore fault id n with
  | (.error e, _) =>
      (.error (.wrap ("failed to update namespace " ++ id) e), w)
  | (.ok _, s') => (.ok (), { w with nsStore := s' })

/-- Go `UpdateNamespace`: write-locks and calls `updateNamespace`. -/
def UpdateNamespace (w : World) (fault : Option Err) (id : String)
    (n : Namespace) : Except Err Unit × World :=
  updateNamespace w fault id n

/-- Fault parameters for the five fallible I/O calls inside
`CreateNamespace`: config load, namespace-store get, set, config save,
and the rollback delete. -/
structure CreateFaults where
  load : Option Err := none
  get : Option Err := none
  set : Option Err := none
  save : Option Err := none
  del : Option Err := none

/-- Go `CreateNamespace` (`namespace.go` lines 91–126): reject an id already
in the config index; reject (with the distinct "in storage" message) an
id whose record already exists in the namespace store; otherwise write
the record, append + sort the index, save it, and on a failed save roll
the record write back, combining the save error with a failed rollback
delete's error. -/
def CreateNamespace (w : World) (f : CreateFaults) (id name : String) :
    Except Err Unit × World :=
  match loadConfigFile w f.load with
  | .error e => (.error e, w)
  | .ok nss =>
    if id ∈ nss then
      (.error (.wrap ("namespace already exists: " ++ id) .nsExists), w)
    else
      match getNamespace w f.get id with
      | .ok _ =>
          (.error
            (.wrap ("namespace already exists in storage: " ++ id) .nsExists),
           w)
      | .error _ =>
        match updateNamespace w f.set id ⟨name, []⟩ with
        | (.error e, w₁) =>
            (.error
              (.wrap ("failed to create namespace " ++ id) (errUnwrap e)),
             w₁)
        | (.ok _, w₁) =>
          let nss' := sortStrings (nss ++ [id])
          match saveConfigFile w₁ f.save nss' with
          | (.ok _, w₂) => (.ok (), w₂)
          | (.error sErr, w₂) =>
            -- Rollback.
            match Store.del w₂.nsStore f.del id with
            | (.ok _, s') => (.error sErr, { w₂ with nsStore := s' })
            | (.error dErr, s') =>
                (.error
                  (.combine sErr (.wrap "failed to delete namespace" dErr)),
                 { w₂ with nsStore := s' })

/-- Fault parameters for the I/O calls inside `deleteNamespace`: config
load, config save, namespace-store get, namespace-store delete, and one
fault per account-store delete (indexed by account name). -/
structure DeleteNSFaults where
  load : Option Err := none
  save : Option Err := none
  get : Option Err := none
  del : Option Err := none
  acctDel : String → Option Err := fun _ => none

/-- Go `formatAccount` (`account.go`): the account-store key
`namespace ++ "/" ++ account`. -/
def formatAccount (nspace account : String) : String :=
  nspace ++ "/" ++ account

/-- Go `getAccount` (`account.go`): storage get under the formatted key,
translating the store's not-found into `ErrAccountNotFound`. -/
def getAccount (w : World) (fault : Option Err) (nspace account : String) :
    Except Err Account :=
  match Store.get w.acctStore fault (formatAccount nspace account) with
  | .ok a => .ok a
  | .error e =>
      if errorIs e .storeNotFound then
        .error (.wrap
          ("failed to get account " ++ account ++ " in namespace " ++ nspace)
          .acctNotFound)
      else
        .error (.wrap
          ("failed to get account " ++ account ++ " in namespace " ++ nspace)
          e)

/-- Go `GetAccount`: read-locks and calls `getAccount`. -/
def GetAccount (w : World) (fault : Option Err) (nspace account : String) :
    Except Err Account :=
  getAccount w fault nspace account

/-- Go `setAccount` (`account.go` lines 99–105): unconditional account-store
write under the formatted key, wrapped on failure. -/
def setAccount (w : World) (fault : Option Err) (nspace : String)
    (account : Account) : Except Err Unit × World :=
  match Store.set w.acctStore fault (formatAccount nspace account.Name)
      account with
  | (.error e, _) =>
      (.error (.wrap
        ("failed to store account " ++ account.Name ++ " in namespace " ++
          nspace) e), w)
  | (.ok _, s') => (.ok (), { w with acctStore := s' })

/-- Fault parameters for the I/O calls inside `SetAccount`: account-store
set, namespace-store get, namespace-store set. -/
structure SetAccountFaults where
  set : Option Err := none
  get : Option Err := none
  upd : Option Err := none

/-- Go `SetAccount` (`account.go` lines 75–97): write the account record,
then load the owning namespace (failing if it does not exist), then — if
the name is not yet a member — append it, sort, and persist the
namespace. -/
def SetAccount (w : World) (f : SetAccountFaults) (nspace : String)
    (account : Account) : Except Err Unit × World :=
  match setAccount w f.set nspace account with
  | (.error e, w') => (.error e, w')
  | (.ok _, w₁) =>
    match getNamespace w₁ f.get nspace with
    | .error e =>
        (.error (.wrap
          ("failed to get namespace " ++ nspace ++ " for creating account " ++
            account.Name) (errUnwrap e)), w₁)
    | .ok n =>
      if account.Name ∈ n.Accounts then (.ok (), w₁)
      else
        updateNamespace w₁ f.upd nspace
          { n with Accounts := sortStrings (n.Accounts ++ [account.Name]) }

/-- Fault parameters for the I/O calls inside `DeleteAccount`:
namespace-store get, namespace-store set, account-store delete. -/
structure DeleteAccountFaults where
  get : Option Err := none
  upd : Option Err := none
  del : Option Err := none

/-- Go `deleteAccount` (`account.go` lines 134–140): account-store delete
under the formatted key, wrapped on failure. -/
def deleteAccount (w : World) (fault : Option Err) (nspace account : String) :
    Except Err Unit × World :=
  match Store.del w.acctStore fault (formatAccount nspace account) with
  | (.error e, _) =>
      (.error (.wrap
        ("failed to delete account " ++ account ++ " in namespace " ++ nspace)
        e), w)
  | (.ok _, s') => (.ok (), { w with acctStore := s' })

/-- The final step of Go `DeleteAccount` (`account.go` lines 127–129):
delete the account record, tolerating the store's not-found. -/
def deleteAccountTolerant (w : World) (fault : Option Err)
    (nspace account : String) : Except Err Unit × World :=
  match deleteAccount w fault nspace account with
  | (.error e, w') =>
      if ¬ errorIs e .storeNotFound then (.error e, w') else (.ok (), w')
  | (.ok _, w') => (.ok (), w')

/-- Go `DeleteAccount` (`account.go` lines 108–132): load the namespace,
tolerating `ErrNamespaceNotFound` (the zero `Namespace` then stands in);
if the name is a member, remove it and persist the namespace; then delete
the account record, tolerating the store's not-found
(`deleteAccountTolerant`). -/
def DeleteAccount (w : World) (f : DeleteAccountFaults)
    (nspace account : String) : Except Err Unit × World :=
  let step : Except Err Namespace :=
    match getNamespace w f.get nspace with
    | .error e =>
        if ¬ errorIs e .nsNotFound then
          .error (.wrap
            ("failed to get namespace " ++ nspace ++ " for deleting account " ++
              account) (errUnwrap e))
        else .ok (Namespace.mk "" [])
    | .ok n => .ok n
  match step with
  | .error e => (.error e, w)
  | .ok n =>
    let afterUpd : Except Err Unit × World :=
      if account ∈ n.Accounts then
        match updateNamespace w f.upd nspace
            { n with Accounts := n.Accounts.filter (fun s => s ≠ account) } with
        | (.error e, w') =>
            (.error (.wrap
              ("failed to remove account " ++ account ++ " from namespace " ++
                nspace) (errUnwrap e)), w')
        | (.ok _, w') => (.ok (), w')
      else (.ok (), w)
    match afterUpd with
    | (.error e, w') => (.error e, w')
    | (.ok _, w₁) => deleteAccountTolerant w₁ f.del nspace account

/-- The account-deletion loop at the end of `deleteNamespace`
(`namespace.go` lines 175–179): delete each listed account, tolerating
the store's not-found, surfacing the first genuine error. -/
def deleteAccountsLoop (w : World) (fAcct : String → Option Err)
    (id : String) : List String → Except Err Unit × World
  | [] => (.ok (), w)
  | a :: rest =>
    match deleteAccount w (fAcct a) id a with
    | (.error e, w') =>
        if errorIs e .storeNotFound then deleteAccountsLoop w' fAcct id rest
        else
          (.error (.wrap ("failed to delete account " ++ a) (errUnwrap e)), w')
    | (.ok _, w') => deleteAccountsLoop w' fAcct id rest

/-- Go `deleteNamespace` (`namespace.go` lines 145–182): remove the id from
the config index (if present) and save; fetch the namespace record —
not-found is success; delete the record; then delete every listed
account via `deleteAccountsLoop`. -/
def deleteNamespace (w : World) (f : DeleteNSFaults) (id : String) :
    Except Err Unit × World :=
  match loadConfigFile w f.load with
  | .error e => (.error e, w)
  | .ok nss =>
    let idxStep : Except Err Unit × World :=
      if id ∈ nss then
        match saveConfigFile w f.save (nss.filter (fun s => s ≠ id)) with
        | (.error e, w') =>
            (.error (.wrap "failed to delete namespace" e), w')
        | (.ok _, w') => (.ok (), w')
      else (.ok (), w)
    match idxStep with
    | (.error e, w') => (.error e, w')
    | (.ok _, w₁) =>
      match getNamespace w₁ f.get id with
      | .error e =>
          if errorIs e .nsNotFound then (.ok (), w₁)
          else
            (.error (.wrap "failed to get namespace for deletion"
              (errUnwrap e)), w₁)
      | .ok n =>
        match Store.del w₁.nsStore f.del id with
        | (.error e, _) =>
            (.error (.wrap "failed to delete namespace" e), w₁)
        | (.ok _, s') =>
            deleteAccountsLoop { w₁ with nsStore := s' } f.acctDel id
              n.Accounts

/-- Go `DeleteNamespace`: write-locks and calls `deleteNamespace`. -/
def DeleteNamespace (w : World) (f : DeleteNSFaults) (id : String) :
    Except Err Unit × World :=
  deleteNamespace w f id

/-- Go `envTOTPSecret` (`totp.go`). -/
def envTOTPSecret : String := "AUTHENTICATOR_TOTP_SECRET"

/-- The process environment as seen by `os.Getenv`: an unset variable
reads as the empty string. -/
abbrev Env := String → String

/-- Go `TOTPSecretGetter` (`totp.go` lines 78–85): a getter bound to a
`(namespace, account)` pair, with the `sync.Once`-guarded cached secret
(`fetchDone` is the once-state; the logger carries no behaviour). -/
structure TOTPSecretGetter where
  nspace : String
  account : String
  secret : TOTPSecret
  fetchDone : Bool
deriving Repr, DecidableEq

/-- Go `TOTPSecretGetter.fetch` (`totp.go` lines 87–108): empty namespace or
account yields the no-secret sentinel without touching storage; a failed
account lookup (any error, not-found included) yields the sentinel;
success yields the account's secret. -/
def TOTPSecretGetter.fetch (s : TOTPSecretGetter) (w : World)
    (fault : Option Err) : TOTPSecret :=
  if s.nspace = "" then NoTOTPSecret
  else if s.account = "" then NoTOTPSecret
  else
    match GetAccount w fault s.nspace s.account with
    | .error _ => NoTOTPSecret
    | .ok a => a.TOTPSecret

/-- Whether `fetch` would read the account store (the two empty-argument
guards return before the `GetAccount` call). -/
def TOTPSecretGetter.fetchTouchesStorage (s : TOTPSecretGetter) : Bool :=
  ¬ (s.nspace = "" ∨ s.account = "")

/-- Go `TOTPSecretGetter.TOTPSecret` (`totp.go` lines 111–117): the
`fetchOnce.Do` body runs only when the once has not fired; afterwards the
cached secret is returned.  Returns the secret and the getter's new
state. -/
def TOTPSecretGetter.totpSecret (s : TOTPSecretGetter) (w : World)
    (fault : Option Err) : TOTPSecret × TOTPSecretGetter :=
  if s.fetchDone then (s.secret, s)
  else
    let v := s.fetch w fault
    (v, { s with secret := v, fetchDone := true })

/-- Go `TOTPSecretFromAccount` (`totp.go` lines 120–132): a fresh getter for
the pair, cache empty, once not yet fired. -/
def TOTPSecretFromAccount (nspace account : String) : TOTPSecretGetter :=
  ⟨nspace, account, "", false⟩

/-- The secret-getter values flowing through `GenerateTOTP`
(`otp.TOTPSecretGetter` interface values built by this package): a plain
secret used as its own getter, the environment source
(`otp.TOTPSecretFromEnv`), the account-bound getter, the two-element
chain (`otp.ChainTOTPSecretGetters` at both call sites takes two
arguments), and Go's `nil`. -/
inductive SecretGetter where
  | value (s : TOTPSecret)
  | env (name : String)
  | fromAccount (g : TOTPSecretGetter)
  | chain (first second : SecretGetter)
  | nil
deriving Repr, DecidableEq

/-- Modelled from the spec: the external `go.nhat.io/otp` chain-getter
semantics (spec §4.4, §6 — the library is an external collaborator, not
in this repository): "The chain evaluates sources in order and uses the
first that yields a non-empty secret."  A plain secret evaluates to
itself, the environment source to the variable's value, the
account-bound getter via its fetch-once cache, and `nil` to the
no-secret sentinel.  The boolean records whether the account store was
read. -/
def SecretGetter.eval (env : Env) (w : World) :
    SecretGetter → TOTPSecret × Bool
  | .value s => (s, false)
  | .env name => (env name, false)
  | .fromAccount g =>
      ((g.totpSecret w none).1, ¬ g.fetchDone && g.fetchTouchesStorage)
  | .chain first second =>
      let (s₁, t₁) := first.eval env w
      if s₁ ≠ NoTOTPSecret then (s₁, t₁)
      else
        let (s₂, t₂) := second.eval env w
        (s₂, t₁ || t₂)
  | .nil => (NoTOTPSecret, false)

/-- Go `generateTOTPConfig` (`totp.go`): the secret getter chosen by the
options (`SecretGetter.nil` embeds the Go `nil`); the logger and the
generator options carry no behaviour in this core. -/
structure generateTOTPConfig where
  secretGetter : SecretGetter
deriving Repr, DecidableEq

/-- The `GenerateTOTPOption` values relevant to this core
(`WithTOTPSecret`, `WithTOTPSecretGetter`; `WithClock` and `WithLogger`
only touch out-of-scope fields). -/
inductive GenerateTOTPOption where
  | withTOTPSecret (s : TOTPSecret)
  | withTOTPSecretGetter (g : SecretGetter)
deriving Repr, DecidableEq

/-- Go `applyGenerateTOTPOption`: `WithTOTPSecret` (`totp.go` lines 52–56)
prepends the plain secret to the current getter in a chain;
`WithTOTPSecretGetter` replaces the getter. -/
def applyGenerateTOTPOption (c : generateTOTPConfig) :
    GenerateTOTPOption → generateTOTPConfig
  | .withTOTPSecret s =>
      { c with secretGetter := .chain (.value s) c.secretGetter }
  | .withTOTPSecretGetter g => { c with secretGetter := g }

/-- Go `GenerateTOTP` (`totp.go` lines 21–38): apply the options; when no
option set a getter, build the default chain (environment source, then
account-bound getter); hand the getter to the external OTP engine.
The engine (`otp.GenerateTOTP`) is modelled from the spec: it resolves
the secret through the getter and "if none [of the sources] do [yield a
non-empty secret], the external OTP engine fails with a 'no totp secret'
condition"; on success the OTP is a function of the resolved secret, so
the result carries that secret.  The boolean records whether the account
store was read. -/
def GenerateTOTP (env : Env) (w : World) (nspace account : String)
    (opts : List GenerateTOTPOption) : Except Err TOTPSecret × Bool :=
  let c := opts.foldl applyGenerateTOTPOption ⟨.nil⟩
  let getter :=
    if c.secretGetter = .nil then
      SecretGetter.chain (.env envTOTPSecret)
        (.fromAccount (TOTPSecretFromAccount nspace account))
    else c.secretGetter
  let (s, touched) := getter.eval env w
  (if s = NoTOTPSecret then .error .noTOTPSecret else .ok s, touched)

/-! ## Basic store lemmas -/

theorem Store.lookup_cons {α} (a : String × α) (s : Store α) (k : String) :
    Store.lookup (a :: s) k = if a.1 = k then some a.2 else s.lookup k := by
  by_cases h : a.1 = k <;> simp [Store.lookup, List.find?_cons, h]

theorem Store.lookup_put_self {α} (s : Store α) (k : String) (v : α) :
    (s.put k v).lookup k = some v := by
  simp [Store.put, Store.lookup_cons]

theorem Store.lookup_filter_ne {α} (s : Store α) (k k' : String)
    (h : k' ≠ k) :
    Store.lookup (s.filter (fun p => p.1 ≠ k)) k' = s.lookup k' := by
  induction s with
  | nil => rfl
  | cons a s ih =>
      by_cases ha : a.1 = k
      · rw [List.filter_cons_of_neg (by simp [ha]), ih, Store.lookup_cons,
          if_neg (by rw [ha]; exact fun hk => h hk.symm)]
      · rw [List.filter_cons_of_pos (by simp [ha]), Store.lookup_cons,
          Store.lookup_cons, ih]

theorem Store.lookup_filter_self {α} (s : Store α) (k : String) :
    Store.lookup (s.filter (fun p => p.1 ≠ k)) k = none := by
  induction s with
  | nil => rfl
  | cons a s ih =>
      by_cases ha : a.1 = k
      · rw [List.filter_cons_of_neg (by simp [ha]), ih]
      · rw [List.filter_cons_of_pos (by simp [ha]), Store.lookup_cons,
          if_neg ha, ih]

theorem Store.lookup_put_ne {α} (s : Store α) {k k' : String} (h : k' ≠ k)
    (v : α) : (s.put k v).lookup k' = s.lookup k' := by
  rw [Store.put, Store.lookup_cons, if_neg (fun hk => h hk.symm),
    Store.lookup_filter_ne _ _ _ h]

theorem Store.lookup_remove_self {α} (s : Store α) (k : String) :
    (s.remove k).lookup k = none :=
  Store.lookup_filter_self s k

theorem Store.lookup_remove_ne {α} (s : Store α) {k k' : String}
    (h : k' ≠ k) : (s.remove k).lookup k' = s.lookup k' :=
  Store.lookup_filter_ne s k k' h

/-! ## Claims C8, C10, C9 -/

/-- C8: `UpdateNamespace id n` overwrites the Secret Store record
unconditionally — no existence check, for every prior world, including
one from which `id` was deleted — and a subsequent `GetNamespace id`
returns exactly `n` (resurrection of a logically-deleted namespace). -/
theorem c8_update_unconditional_resurrects (w : World) (id : String)
    (n : Namespace) :
    (UpdateNamespace w none id n).1 = .ok () ∧
    (UpdateNamespace w none id n).2 =
      { w with nsStore := w.nsStore.put id n } ∧
    GetNamespace (UpdateNamespace w none id n).2 none id = .ok n := by
  refine ⟨rfl, rfl, ?_⟩
  simp [GetNamespace, getNamespace, UpdateNamespace, updateNamespace,
    Store.set, Store.get, Store.lookup_put_self]

/-- C10: the account key `formatAccount` concatenates namespace, "/",
and account with no escaping, hence is not injective: the distinct pairs
("a","b/c") and ("a/b","c") collide, every world's account store resolves
both pairs to the same entry, and a record written through one pair is
read (and deleted) through the other. -/
theorem c10_account_key_not_injective :
    formatAccount "a" "b/c" = formatAccount "a/b" "c" ∧
    (("a", "b/c") : String × String) ≠ ("a/b", "c") ∧
    (∀ w : World,
      Store.lookup w.acctStore (formatAccount "a" "b/c") =
        Store.lookup w.acctStore (formatAccount "a/b" "c")) ∧
    (GetAccount ((setAccount ⟨[], [], []⟩ none "a"
        ⟨"b/c", "S3CR3T", "", []⟩).2) none "a/b" "c" =
      .ok ⟨"b/c", "S3CR3T", "", []⟩) ∧
    (Store.lookup ((deleteAccount ((setAccount ⟨[], [], []⟩ none "a"
        ⟨"b/c", "S3CR3T", "", []⟩).2) none "a/b" "c").2).acctStore
        (formatAccount "a" "b/c") = none) := by
  refine ⟨rfl, by decide, fun w => rfl, rfl, rfl⟩

/-- C9: when the namespace record is absent, `SetAccount` returns a
`NamespaceNotFound`-kind error, yet the account record was already
written to the account store before the namespace lookup and is not
rolled back: the store is mutated and a subsequent `GetAccount`
succeeds. -/
theorem c9_setaccount_mutates_despite_failure (w : World)
    (nspace : String) (a : Account)
    (h : Store.lookup w.nsStore nspace = none) :
    (SetAccount w ⟨none, none, none⟩ nspace a).1 =
      .error (.wrap ("failed to get namespace " ++ nspace ++
        " for creating account " ++ a.Name) .nsNotFound) ∧
    errorIs (.wrap ("failed to get namespace " ++ nspace ++
        " for creating account " ++ a.Name) .nsNotFound) .nsNotFound = true ∧
    (SetAccount w ⟨none, none, none⟩ nspace a).2.acctStore =
      w.acctStore.put (formatAccount nspace a.Name) a ∧
    GetAccount (SetAccount w ⟨none, none, none⟩ nspace a).2 none nspace
      a.Name = .ok a := by
  have hset : setAccount w none nspace a =
      (.ok (),
        { w with
            acctStore := w.acctStore.put (formatAccount nspace a.Name) a }) :=
    rfl
  have hget : ∀ w' : World, w'.nsStore = w.nsStore →
      getNamespace w' none nspace =
        .error (.wrap ("failed to get namespace " ++ nspace) .nsNotFound) := by
    intro w' hw
    simp [getNamespace, Store.get, hw, h, errorIs]
  refine ⟨?_, by simp [errorIs], ?_, ?_⟩
  · simp [SetAccount, hset, hget, errUnwrap]
  · simp [SetAccount, hset, hget, errUnwrap]
  · simp [SetAccount, hset, hget, errUnwrap, GetAccount, getAccount,
      Store.get, Store.lookup_put_self]

/-- Witness for C9 at a concrete input: empty world, namespace "ns",
account "alice". -/
theorem c9_witness :
    Store.lookup (World.mk [] [] []).nsStore "ns" = none ∧
    ((SetAccount ⟨[], [], []⟩ ⟨none, none, none⟩ "ns"
        ⟨"alice", "S", "", []⟩).1 =
      .error (.wrap ("failed to get namespace " ++ "ns" ++
        " for creating account " ++ "alice") .nsNotFound) ∧
    errorIs (.wrap ("failed to get namespace " ++ "ns" ++
        " for creating account " ++ "alice") .nsNotFound) .nsNotFound
        = true ∧
    (SetAccount ⟨[], [], []⟩ ⟨none, none, none⟩ "ns"
        ⟨"alice", "S", "", []⟩).2.acctStore =
      Store.put [] (formatAccount "ns" "alice") ⟨"alice", "S", "", []⟩ ∧
    GetAccount (SetAccount ⟨[], [], []⟩ ⟨none, none, none⟩ "ns"
        ⟨"alice", "S", "", []⟩).2 none "ns" "alice" =
      .ok ⟨"alice", "S", "", []⟩) :=
  ⟨rfl, c9_setaccount_mutates_despite_failure ⟨[], [], []⟩ "ns"
    ⟨"alice", "S", "", []⟩ rfl⟩

/-! ## Claims C6 and C1 -/

/-- C6: `CreateNamespace` fails with a `NamespaceExists`-kind error when
the id is in the Config Index, and with the distinct same-kind
"in storage" error when a record exists in the Secret Store while the id
is absent from the index; both failures leave the world (both stores and
the index) unchanged, both errors wrap `ErrNamespaceExists`, and the two
errors differ. -/
theorem c6_create_rejects_existing (w : World) (id name : String) :
    (id ∈ w.cfgNamespaces →
      CreateNamespace w ⟨none, none, none, none, none⟩ id name =
        (.error (.wrap ("namespace already exists: " ++ id) .nsExists), w)) ∧
    (id ∉ w.cfgNamespaces → ∀ n, Store.lookup w.nsStore id = some n →
      CreateNamespace w ⟨none, none, none, none, none⟩ id name =
        (.error (.wrap ("namespace already exists in storage: " ++ id)
          .nsExists), w)) ∧
    errorIs (.wrap ("namespace already exists: " ++ id) .nsExists)
      .nsExists = true ∧
    errorIs (.wrap ("namespace already exists in storage: " ++ id) .nsExists)
      .nsExists = true ∧
    (Err.wrap ("namespace already exists: " ++ id) .nsExists ≠
      Err.wrap ("namespace already exists in storage: " ++ id) .nsExists) := by
  refine ⟨?_, ?_, by simp [errorIs], by simp [errorIs], ?_⟩
  · intro h
    simp [CreateNamespace, loadConfigFile, h]
  · intro h n hn
    simp [CreateNamespace, loadConfigFile, h, getNamespace, Store.get, hn]
  · intro hcontr
    have hmsg : ("namespace already exists: " ++ id) =
        ("namespace already exists in storage: " ++ id) :=
      (Err.wrap.injEq _ _ _ _).mp hcontr |>.1
    have hlen := congrArg String.length hmsg
    rw [String.length_append, String.length_append] at hlen
    have hne : ("namespace already exists: ").length ≠
        ("namespace already exists in storage: ").length := by decide
    exact hne (Nat.add_right_cancel hlen)

/-- Witness for C6: id "ns" present in the index of one concrete world,
and present only in the namespace store of another. -/
theorem c6_witness :
    ("ns" ∈ (World.mk [] [] ["ns"]).cfgNamespaces ∧
      CreateNamespace ⟨[], [], ["ns"]⟩ ⟨none, none, none, none, none⟩
        "ns" "N" =
        (.error (.wrap ("namespace already exists: " ++ "ns") .nsExists),
          ⟨[], [], ["ns"]⟩)) ∧
    ("ns" ∉ (World.mk [("ns", ⟨"N", []⟩)] [] []).cfgNamespaces ∧
      CreateNamespace ⟨[("ns", ⟨"N", []⟩)], [], []⟩
        ⟨none, none, none, none, none⟩ "ns" "N" =
        (.error (.wrap ("namespace already exists in storage: " ++ "ns")
          .nsExists), ⟨[("ns", ⟨"N", []⟩)], [], []⟩)) :=
  ⟨⟨by decide,
    (c6_create_rejects_existing ⟨[], [], ["ns"]⟩ "ns" "N").1 (by decide)⟩,
   ⟨by decide,
    (c6_create_rejects_existing ⟨[("ns", ⟨"N", []⟩)], [], []⟩ "ns" "N").2.1
      (by decide) ⟨"N", []⟩ rfl⟩⟩

/-- C1: when `CreateNamespace`'s store write succeeds and the index save
fails, the store write is rolled back (a subsequent `GetNamespace`
reports `NamespaceNotFound`) and the save error is returned; when the
rollback delete itself also fails, the returned error combines the save
error and the delete error. -/
theorem c1_create_rollback_on_save_failure (w : World) (id name : String)
    (sE : Err) (hni : id ∉ w.cfgNamespaces)
    (hns : Store.lookup w.nsStore id = none) :
    ((CreateNamespace w ⟨none, none, none, some sE, none⟩ id name).1 =
      .error (.wrap "failed to write config file" sE) ∧
     (∃ e, GetNamespace
        (CreateNamespace w ⟨none, none, none, some sE, none⟩ id name).2
        none id = .error e ∧ errorIs e .nsNotFound = true)) ∧
    (∀ dE : Err,
      (CreateNamespace w ⟨none, none, none, some sE, some dE⟩ id name).1 =
        .error (.combine (.wrap "failed to write config file" sE)
          (.wrap "failed to delete namespace" dE))) := by
  have hget : getNamespace w none id =
      .error (.wrap ("failed to get namespace " ++ id) .nsNotFound) := by
    simp [getNamespace, Store.get, hns, errorIs]
  constructor
  · constructor
    · simp [CreateNamespace, loadConfigFile, hni, hget, updateNamespace,
        Store.set, saveConfigFile, Store.del, Store.lookup_put_self]
    · refine ⟨.wrap ("failed to get namespace " ++ id) .nsNotFound, ?_,
        by simp [errorIs]⟩
      have hrun : (CreateNamespace w ⟨none, none, none, some sE, none⟩
          id name).2 =
          { w with nsStore := (w.nsStore.put id ⟨name, []⟩).remove id } := by
        simp [CreateNamespace, loadConfigFile, hni, hget, updateNamespace,
          Store.set, saveConfigFile, Store.del, Store.lookup_put_self]
      rw [hrun]
      simp [GetNamespace, getNamespace, Store.get, Store.lookup_remove_self,
        errorIs]
  · intro dE
    simp [CreateNamespace, loadConfigFile, hni, hget, updateNamespace,
      Store.set, saveConfigFile, Store.del, Store.lookup_put_self]

/-- Witness for C1 at a concrete input: empty world, namespace "ns",
save error `io 1`, delete error `io 2`. -/
theorem c1_witness :
    ("ns" ∉ (World.mk [] [] []).cfgNamespaces ∧
      Store.lookup (World.mk [] [] []).nsStore "ns" = none) ∧
    (((CreateNamespace ⟨[], [], []⟩ ⟨none, none, none, some (.io 1), none⟩
        "ns" "N").1 = .error (.wrap "failed to write config file" (.io 1)) ∧
      (∃ e, GetNamespace
        (CreateNamespace ⟨[], [], []⟩ ⟨none, none, none, some (.io 1), none⟩
          "ns" "N").2 none "ns" = .error e ∧ errorIs e .nsNotFound = true)) ∧
     (∀ dE : Err,
      (CreateNamespace ⟨[], [], []⟩ ⟨none, none, none, some (.io 1), some dE⟩
        "ns" "N").1 =
        .error (.combine (.wrap "failed to write config file" (.io 1))
          (.wrap "failed to delete namespace" dE)))) :=
  ⟨⟨by decide, rfl⟩,
   c1_create_rollback_on_save_failure ⟨[], [], []⟩ "ns" "N" (.io 1)
     (by decide) rfl⟩

/-! ## Claims C4 and C5 -/

/-- C4: the TOTP secret getter fetches at most once.  On a fresh instance
the first call performs the lookup: an empty namespace or account yields
the no-secret sentinel for every world and fault (storage untouched), a
failed lookup (not-found included) yields the sentinel, and a successful
lookup yields the stored secret — so a new instance for the pair sees the
current store.  Once fetched, every later call returns the cached first
result unchanged, for every later world and fault (mutations in between
are invisible). -/
theorem c4_fetch_once_caching (w w' : World) (f f' : Option Err)
    (ns acct : String) (a : Account) (hns : ns ≠ "") (hacct : acct ≠ "") :
    ((TOTPSecretFromAccount "" acct).totpSecret w f).1 = NoTOTPSecret ∧
    ((TOTPSecretFromAccount ns "").totpSecret w f).1 = NoTOTPSecret ∧
    (TOTPSecretFromAccount "" acct).fetchTouchesStorage = false ∧
    (TOTPSecretFromAccount ns "").fetchTouchesStorage = false ∧
    (∀ e, GetAccount w f ns acct = .error e →
      ((TOTPSecretFromAccount ns acct).totpSecret w f).1 = NoTOTPSecret) ∧
    (GetAccount w f ns acct = .ok a →
      ((TOTPSecretFromAccount ns acct).totpSecret w f).1 = a.TOTPSecret) ∧
    (∀ g : TOTPSecretGetter,
      ((g.totpSecret w f).2).totpSecret w' f' =
        ((g.totpSecret w f).1, (g.totpSecret w f).2)) := by
  refine ⟨?_, ?_, ?_, ?_, ?_, ?_, ?_⟩
  · simp [TOTPSecretFromAccount, TOTPSecretGetter.totpSecret,
      TOTPSecretGetter.fetch]
  · simp [TOTPSecretFromAccount, TOTPSecretGetter.totpSecret,
      TOTPSecretGetter.fetch]
  · simp [TOTPSecretFromAccount, TOTPSecretGetter.fetchTouchesStorage]
  · simp [TOTPSecretFromAccount, TOTPSecretGetter.fetchTouchesStorage]
  · intro e he
    simp [TOTPSecretFromAccount, TOTPSecretGetter.totpSecret,
      TOTPSecretGetter.fetch, hns, hacct, he]
  · intro ha
    simp [TOTPSecretFromAccount, TOTPSecretGetter.totpSecret,
      TOTPSecretGetter.fetch, hns, hacct, ha]
  · intro g
    by_cases hg : g.fetchDone <;>
      simp [TOTPSecretGetter.totpSecret, hg]

/-- Witness for C4 at a concrete input: a world holding account "alice"
in namespace "ns" with secret "S", and an unrelated later world. -/
theorem c4_witness :
    (("ns" : String) ≠ "") ∧ (("alice" : String) ≠ "") ∧
    (((TOTPSecretFromAccount "" "alice").totpSecret
        ⟨[], [("ns/alice", ⟨"alice", "S", "", []⟩)], []⟩ none).1 =
      NoTOTPSecret ∧
    ((TOTPSecretFromAccount "ns" "").totpSecret
        ⟨[], [("ns/alice", ⟨"alice", "S", "", []⟩)], []⟩ none).1 =
      NoTOTPSecret ∧
    (TOTPSecretFromAccount "" "alice").fetchTouchesStorage = false ∧
    (TOTPSecretFromAccount "ns" "").fetchTouchesStorage = false ∧
    (∀ e, GetAccount ⟨[], [("ns/alice", ⟨"alice", "S", "", []⟩)], []⟩ none
        "ns" "alice" = .error e →
      ((TOTPSecretFromAccount "ns" "alice").totpSecret
        ⟨[], [("ns/alice", ⟨"alice", "S", "", []⟩)], []⟩ none).1 =
        NoTOTPSecret) ∧
    (GetAccount ⟨[], [("ns/alice", ⟨"alice", "S", "", []⟩)], []⟩ none
        "ns" "alice" = .ok ⟨"alice", "S", "", []⟩ →
      ((TOTPSecretFromAccount "ns" "alice").totpSecret
        ⟨[], [("ns/alice", ⟨"alice", "S", "", []⟩)], []⟩ none).1 =
        Account.TOTPSecret ⟨"alice", "S", "", []⟩) ∧
    (∀ g : TOTPSecretGetter,
      ((g.totpSecret ⟨[], [("ns/alice", ⟨"alice", "S", "", []⟩)], []⟩
          none).2).totpSecret ⟨[], [], []⟩ none =
        ((g.totpSecret ⟨[], [("ns/alice", ⟨"alice", "S", "", []⟩)], []⟩
            none).1,
         (g.totpSecret ⟨[], [("ns/alice", ⟨"alice", "S", "", []⟩)], []⟩
            none).2))) :=
  ⟨by decide, by decide,
   c4_fetch_once_caching
     ⟨[], [("ns/alice", ⟨"alice", "S", "", []⟩)], []⟩ ⟨[], [], []⟩
     none none "ns" "alice" ⟨"alice", "S", "", []⟩ (by decide) (by decide)⟩

/-- C5: with an explicit secret option the OTP is computed from that
secret and the account store is never consulted, for every environment
and store contents (the default env + account chain is not even built);
without options the default chain uses the environment variable when
non-empty, else the stored account secret; when no source yields a
secret the engine fails with the "no totp secret" condition. -/
theorem c5_chain_priority (env : Env) (w : World) (ns acct : String)
    (s : TOTPSecret) (hs : s ≠ "") :
    GenerateTOTP env w ns acct [.withTOTPSecret s] = (.ok s, false) ∧
    (env envTOTPSecret ≠ "" →
      GenerateTOTP env w ns acct [] = (.ok (env envTOTPSecret), false)) ∧
    (env envTOTPSecret = "" → ns ≠ "" → acct ≠ "" →
      ∀ a : Account, GetAccount w none ns acct = .ok a → a.TOTPSecret ≠ "" →
        GenerateTOTP env w ns acct [] = (.ok a.TOTPSecret, true)) ∧
    (env envTOTPSecret = "" → ns ≠ "" → acct ≠ "" →
      ∀ e, GetAccount w none ns acct = .error e →
        GenerateTOTP env w ns acct [] = (.error .noTOTPSecret, true)) := by
  refine ⟨?_, ?_, ?_, ?_⟩
  · simp [GenerateTOTP, applyGenerateTOTPOption, SecretGetter.eval,
      NoTOTPSecret, hs]
  · intro he
    simp [GenerateTOTP, SecretGetter.eval, NoTOTPSecret, he]
  · intro he hns hacct a ha hsec
    simp [GenerateTOTP, SecretGetter.eval, NoTOTPSecret, he,
      TOTPSecretFromAccount, TOTPSecretGetter.totpSecret,
      TOTPSecretGetter.fetch, TOTPSecretGetter.fetchTouchesStorage,
      hns, hacct, ha, hsec]
  · intro he hns hacct e hee
    simp [GenerateTOTP, SecretGetter.eval, NoTOTPSecret, he,
      TOTPSecretFromAccount, TOTPSecretGetter.totpSecret,
      TOTPSecretGetter.fetch, TOTPSecretGetter.fetchTouchesStorage,
      hns, hacct, hee]

/-- Witness for C5 at a concrete input with all three sources present
and non-empty: explicit secret "EXPLICIT", environment variable value
"ENVVAL", stored secret "S". -/
theorem c5_witness :
    (("EXPLICIT" : String) ≠ "") ∧
    (GenerateTOTP (fun _ => "ENVVAL")
        ⟨[], [("ns/alice", ⟨"alice", "S", "", []⟩)], []⟩ "ns" "alice"
        [.withTOTPSecret "EXPLICIT"] = (.ok "EXPLICIT", false) ∧
    ((fun _ : String => "ENVVAL") envTOTPSecret ≠ "" →
      GenerateTOTP (fun _ => "ENVVAL")
        ⟨[], [("ns/alice", ⟨"alice", "S", "", []⟩)], []⟩ "ns" "alice" [] =
        (.ok ((fun _ : String => "ENVVAL") envTOTPSecret), false)) ∧
    ((fun _ : String => "ENVVAL") envTOTPSecret = "" →
      ("ns" : String) ≠ "" → ("alice" : String) ≠ "" →
      ∀ a : Account,
        GetAccount ⟨[], [("ns/alice", ⟨"alice", "S", "", []⟩)], []⟩ none
          "ns" "alice" = .ok a → a.TOTPSecret ≠ "" →
        GenerateTOTP (fun _ => "ENVVAL")
          ⟨[], [("ns/alice", ⟨"alice", "S", "", []⟩)], []⟩ "ns" "alice" [] =
          (.ok a.TOTPSecret, true)) ∧
    ((fun _ : String => "ENVVAL") envTOTPSecret = "" →
      ("ns" : String) ≠ "" → ("alice" : String) ≠ "" →
      ∀ e, GetAccount ⟨[], [("ns/alice", ⟨"alice", "S", "", []⟩)], []⟩ none
          "ns" "alice" = .error e →
        GenerateTOTP (fun _ => "ENVVAL")
          ⟨[], [("ns/alice", ⟨"alice", "S", "", []⟩)], []⟩ "ns" "alice" [] =
          (.error .noTOTPSecret, true))) :=
  ⟨by decide,
   c5_chain_priority (fun _ => "ENVVAL")
     ⟨[], [("ns/alice", ⟨"alice", "S", "", []⟩)], []⟩ "ns" "alice"
     "EXPLICIT" (by decide)⟩

/-! ## Sorted-invariant machinery for C2 and C7 -/

/-- The invariant the spec demands of an accounts list: lexicographically
sorted ascending, no duplicates. -/
def accountsInv (l : List String) : Prop :=
  List.Sorted strLe l ∧ l.Nodup

theorem sortStrings_sorted (l : List String) :
    List.Sorted strLe (sortStrings l) :=
  List.sorted_insertionSort _ l

theorem sortStrings_perm (l : List String) :
    List.Perm (sortStrings l) l :=
  List.perm_insertionSort _ l

theorem mem_sortStrings {x : String} {l : List String} :
    x ∈ sortStrings l ↔ x ∈ l :=
  (sortStrings_perm l).mem_iff

theorem accountsInv_nil : accountsInv [] :=
  ⟨List.sorted_nil, List.nodup_nil⟩

theorem accountsInv.insert {l : List String} (h : accountsInv l)
    {x : String} (hx : x ∉ l) : accountsInv (sortStrings (l ++ [x])) := by
  refine ⟨sortStrings_sorted _, ?_⟩
  have happ : (l ++ [x]).Nodup := by
    simp [List.nodup_append, h.2, hx]
  exact ((sortStrings_perm (l ++ [x])).nodup_iff).mpr happ

theorem accountsInv.filterInv {l : List String} (h : accountsInv l)
    (p : String → Bool) : accountsInv (l.filter p) :=
  ⟨h.1.filter p, h.2.filter p⟩

theorem getNamespace_ok_iff (w : World) (f : Option Err) (id : String)
    (n : Namespace) :
    getNamespace w f id = .ok n ↔
      f = none ∧ Store.lookup w.nsStore id = some n := by
  cases f with
  | some e =>
      simp only [getNamespace, Store.get]
      split <;> simp
  | none =>
      cases hl : Store.lookup w.nsStore id with
      | none => simp [getNamespace, Store.get, hl, errorIs]
      | some m => simp [getNamespace, Store.get, hl, eq_comm]

/-- Case analysis on the namespace-store effect of `SetAccount`: either
the namespace store is untouched, or the id's record gains the account
name, appended and sorted. -/
theorem SetAccount_nsStore_cases (w : World) (f : SetAccountFaults)
    (id : String) (a : Account) :
    (SetAccount w f id a).2.nsStore = w.nsStore ∨
    ∃ n, Store.lookup w.nsStore id = some n ∧ a.Name ∉ n.Accounts ∧
      (SetAccount w f id a).2.nsStore =
        w.nsStore.put id ⟨n.Name, sortStrings (n.Accounts ++ [a.Name])⟩ := by
  obtain ⟨fset, fget, fupd⟩ := f
  cases fset with
  | some e => left; rfl
  | none =>
    cases hg : getNamespace
        { w with acctStore := w.acctStore.put (formatAccount id a.Name) a }
        fget id with
    | error e =>
        left
        simp [SetAccount, setAccount, Store.set, hg]
    | ok n =>
        have hl : Store.lookup w.nsStore id = some n :=
          ((getNamespace_ok_iff _ _ _ _).mp hg).2
        by_cases hm : a.Name ∈ n.Accounts
        · left
          simp [SetAccount, setAccount, Store.set, hg, hm]
        · cases fupd with
          | some e =>
              left
              simp [SetAccount, setAccount, Store.set, hg, hm,
                updateNamespace]
          | none =>
              right
              refine ⟨n, hl, hm, ?_⟩
              simp [SetAccount, setAccount, Store.set, hg, hm,
                updateNamespace]

theorem deleteAccount_nsStore (w : World) (f : Option Err)
    (nspace account : String) :
    (deleteAccount w f nspace account).2.nsStore = w.nsStore := by
  rcases hdel : Store.del w.acctStore f (formatAccount nspace account)
    with ⟨r, s'⟩
  cases r <;> simp [deleteAccount, hdel]

theorem deleteAccountTolerant_nsStore (w : World) (f : Option Err)
    (nspace account : String) :
    (deleteAccountTolerant w f nspace account).2.nsStore = w.nsStore := by
  rcases hda : deleteAccount w f nspace account with ⟨r, w'⟩
  have hns : w'.nsStore = w.nsStore := by
    have h := deleteAccount_nsStore w f nspace account
    rw [hda] at h; exact h
  cases r with
  | error e =>
      by_cases hc : errorIs e Err.storeNotFound <;>
        simp [deleteAccountTolerant, hda, hc, hns]
  | ok _ => simp [deleteAccountTolerant, hda, hns]

/-- Case analysis on the namespace-store effect of `DeleteAccount`:
either the namespace store is untouched, or the id's record loses the
account name by filtering. -/
theorem DeleteAccount_nsStore_cases (w : World) (f : DeleteAccountFaults)
    (id name : String) :
    (DeleteAccount w f id name).2.nsStore = w.nsStore ∨
    ∃ n, Store.lookup w.nsStore id = some n ∧ name ∈ n.Accounts ∧
      (DeleteAccount w f id name).2.nsStore =
        w.nsStore.put id ⟨n.Name, n.Accounts.filter (fun s => s ≠ name)⟩ := by
  obtain ⟨fget, fupd, fdel⟩ := f
  cases hg : getNamespace w fget id with
  | error e =>
      by_cases he : errorIs e .nsNotFound
      · left
        simp [DeleteAccount, hg, he, deleteAccountTolerant_nsStore]
      · left
        simp [DeleteAccount, hg, he]
  | ok n =>
      have hl : Store.lookup w.nsStore id = some n :=
        ((getNamespace_ok_iff _ _ _ _).mp hg).2
      by_cases hm : name ∈ n.Accounts
      · cases fupd with
        | some e =>
            left
            simp [DeleteAccount, hg, hm, updateNamespace, Store.set]
        | none =>
            right
            refine ⟨n, hl, hm, ?_⟩
            simp [DeleteAccount, hg, hm, updateNamespace, Store.set,
              deleteAccountTolerant_nsStore]
      · left
        simp [DeleteAccount, hg, hm, deleteAccountTolerant_nsStore]

/-- The per-namespace invariant: whatever record the namespace store
holds for `id` has a sorted, duplicate-free accounts list. -/
def nsAccountsOK (w : World) (id : String) : Prop :=
  ∀ n, Store.lookup w.nsStore id = some n → accountsInv n.Accounts

theorem nsAccountsOK_set (w : World) (f : SetAccountFaults) (id : String)
    (a : Account) (h : nsAccountsOK w id) :
    nsAccountsOK (SetAccount w f id a).2 id := by
  rcases SetAccount_nsStore_cases w f id a with hsame | ⟨n, hl, hm, hput⟩
  · intro n hn; rw [hsame] at hn; exact h n hn
  · intro n' hn'
    rw [hput, Store.lookup_put_self] at hn'
    obtain rfl := Option.some.inj hn'
    exact (h n hl).insert hm

theorem nsAccountsOK_del (w : World) (f : DeleteAccountFaults)
    (id name : String) (h : nsAccountsOK w id) :
    nsAccountsOK (DeleteAccount w f id name).2 id := by
  rcases DeleteAccount_nsStore_cases w f id name with hsame | ⟨n, hl, _, hput⟩
  · intro n hn; rw [hsame] at hn; exact h n hn
  · intro n' hn'
    rw [hput, Store.lookup_put_self] at hn'
    obtain rfl := Option.some.inj hn'
    exact (h n hl).filterInv _

/-- A finite sequence of account-level operations applied to the
namespace `id`, with fault injections. -/
inductive AcctOp where
  | set (f : SetAccountFaults) (a : Account)
  | del (f : DeleteAccountFaults) (name : String)

/-- Running a sequence of `SetAccount` / `DeleteAccount` calls against
namespace `id`. -/
def runOps (id : String) : World → List AcctOp → World
  | w, [] => w
  | w, .set f a :: rest => runOps id (SetAccount w f id a).2 rest
  | w, .del f name :: rest => runOps id (DeleteAccount w f id name).2 rest

theorem nsAccountsOK_runOps (id : String) (ops : List AcctOp) :
    ∀ w : World, nsAccountsOK w id → nsAccountsOK (runOps id w ops) id := by
  induction ops with
  | nil => intro w h; exact h
  | cons op rest ih =>
      intro w h
      cases op with
      | set f a => exact ih _ (nsAccountsOK_set w f id a h)
      | del f name => exact ih _ (nsAccountsOK_del w f id name h)

/-- A successful `CreateNamespace` leaves the id's record with the empty
(sorted, duplicate-free) accounts list. -/
theorem nsAccountsOK_create (w : World) (cf : CreateFaults)
    (id name : String)
    (hok : (CreateNamespace w cf id name).1 = .ok ()) :
    nsAccountsOK (CreateNamespace w cf id name).2 id := by
  obtain ⟨fload, fget, fset, fsave, fdel⟩ := cf
  cases fload with
  | some e => simp [CreateNamespace, loadConfigFile] at hok
  | none =>
    by_cases hmem : id ∈ w.cfgNamespaces
    · simp [CreateNamespace, loadConfigFile, hmem] at hok
    · cases hg : getNamespace w fget id with
      | ok n => simp [CreateNamespace, loadConfigFile, hmem, hg] at hok
      | error e =>
        cases fset with
        | some e' =>
            simp [CreateNamespace, loadConfigFile, hmem, hg,
              updateNamespace, Store.set] at hok
        | none =>
          cases fsave with
          | some e' =>
              exfalso
              rcases hdel : Store.del
                  (w.nsStore.put id ⟨name, []⟩) fdel id with ⟨r, s'⟩
              cases r <;>
                simp [CreateNamespace, loadConfigFile, hmem, hg,
                  updateNamespace, Store.set, saveConfigFile, hdel] at hok
          | none =>
              intro n hn
              simp [CreateNamespace, loadConfigFile, hmem, hg,
                updateNamespace, Store.set, saveConfigFile,
                Store.lookup_put_self] at hn
              simp [← hn, accountsInv]

/-- C2: for every namespace successfully created by `CreateNamespace` and
every finite sequence of `SetAccount` / `DeleteAccount` operations on it
(with arbitrary injected faults), the accounts list any subsequent
`GetNamespace` returns is lexicographically sorted ascending with no
duplicates. -/
theorem c2_sorted_invariant (w : World) (cf : CreateFaults)
    (id name : String) (ops : List AcctOp) (n : Namespace)
    (hok : (CreateNamespace w cf id name).1 = .ok ())
    (hget : GetNamespace (runOps id (CreateNamespace w cf id name).2 ops)
      none id = .ok n) :
    List.Sorted strLe n.Accounts ∧ n.Accounts.Nodup := by
  have hinv := nsAccountsOK_runOps id ops _
    (nsAccountsOK_create w cf id name hok)
  exact hinv n ((getNamespace_ok_iff _ _ _ _).mp hget).2

/-! ## Claim C7 -/

/-- The effect of one fault-free `SetAccount` on the id's namespace
record: insert the name if absent, keeping the list sorted. -/
def addAccount (n : Namespace) (x : String) : Namespace :=
  if x ∈ n.Accounts then n else ⟨n.Name, sortStrings (n.Accounts ++ [x])⟩

theorem addAccount_inv {n : Namespace} (h : accountsInv n.Accounts)
    (x : String) : accountsInv (addAccount n x).Accounts := by
  unfold addAccount
  by_cases hm : x ∈ n.Accounts
  · simpa [hm] using h
  · simpa [hm] using h.insert hm

theorem mem_addAccount {n : Namespace} {x y : String} :
    y ∈ (addAccount n x).Accounts ↔ y = x ∨ y ∈ n.Accounts := by
  unfold addAccount
  by_cases hm : x ∈ n.Accounts
  · simp only [hm, if_pos]
    constructor
    · exact fun h => Or.inr h
    · rintro (rfl | h) <;> [exact hm; exact h]
  · simp [hm, mem_sortStrings, List.mem_append, or_comm]

theorem addAccount_name (n : Namespace) (x : String) :
    (addAccount n x).Name = n.Name := by
  unfold addAccount
  split <;> rfl

theorem Namespace.eq_of_fields {p q : Namespace} (h1 : p.Name = q.Name)
    (h2 : p.Accounts = q.Accounts) : p = q := by
  cases p; cases q; cases h1; cases h2; rfl

theorem addAccount_comm {n : Namespace} (h : accountsInv n.Accounts)
    (x y : String) :
    addAccount (addAccount n x) y = addAccount (addAccount n y) x := by
  have hinv1 : accountsInv (addAccount (addAccount n x) y).Accounts :=
    addAccount_inv (addAccount_inv h x) y
  have hinv2 : accountsInv (addAccount (addAccount n y) x).Accounts :=
    addAccount_inv (addAccount_inv h y) x
  have hmem : ∀ z, z ∈ (addAccount (addAccount n x) y).Accounts ↔
      z ∈ (addAccount (addAccount n y) x).Accounts := by
    intro z
    simp only [mem_addAccount]
    tauto
  have hperm := (List.perm_ext_iff_of_nodup hinv1.2 hinv2.2).mpr hmem
  have heq := List.eq_of_perm_of_sorted hperm hinv1.1 hinv2.1
  exact Namespace.eq_of_fields
    (by rw [addAccount_name, addAccount_name, addAccount_name,
      addAccount_name]) heq

/-- A fault-free `SetAccount` against an existing namespace record
succeeds and turns the record into `addAccount`. -/
theorem SetAccount_clean (w : World) (id : String) (a : Account)
    (n₀ : Namespace) (hl : Store.lookup w.nsStore id = some n₀) :
    (SetAccount w ⟨none, none, none⟩ id a).1 = .ok () ∧
    Store.lookup (SetAccount w ⟨none, none, none⟩ id a).2.nsStore id =
      some (addAccount n₀ a.Name) := by
  have hg : getNamespace
      { w with acctStore := w.acctStore.put (formatAccount id a.Name) a }
      none id = .ok n₀ := by
    simp [getNamespace, Store.get, hl]
  by_cases hm : a.Name ∈ n₀.Accounts
  · constructor <;>
      simp [SetAccount, setAccount, Store.set, hg, hm, addAccount, hl]
  · constructor <;>
      simp [SetAccount, setAccount, Store.set, hg, hm, addAccount,
        updateNamespace, Store.lookup_put_self]

/-- A successful `SetAccount` leaves the id's record present with the
account name a member. -/
theorem SetAccount_ok_member (w : World) (f : SetAccountFaults)
    (id : String) (a : Account)
    (hok : (SetAccount w f id a).1 = .ok ()) :
    ∃ n₁, Store.lookup (SetAccount w f id a).2.nsStore id = some n₁ ∧
      a.Name ∈ n₁.Accounts := by
  obtain ⟨fset, fget, fupd⟩ := f
  cases fset with
  | some e => simp [SetAccount, setAccount, Store.set] at hok
  | none =>
    cases hg : getNamespace
        { w with acctStore := w.acctStore.put (formatAccount id a.Name) a }
        fget id with
    | error e => simp [SetAccount, setAccount, Store.set, hg] at hok
    | ok n =>
        obtain ⟨rfl, hl⟩ := (getNamespace_ok_iff _ _ _ _).mp hg
        by_cases hm : a.Name ∈ n.Accounts
        · refine ⟨n, ?_, hm⟩
          simp [SetAccount, setAccount, Store.set, hg, hm, hl]
        · cases fupd with
          | some e =>
              simp [SetAccount, setAccount, Store.set, hg, hm,
                updateNamespace] at hok
          | none =>
              refine ⟨⟨n.Name, sortStrings (n.Accounts ++ [a.Name])⟩, ?_, ?_⟩
              · simp [SetAccount, setAccount, Store.set, hg, hm,
                  updateNamespace, Store.lookup_put_self]
              · simp [mem_sortStrings]

/-- C7: after a successful `SetAccount`, repeating the same call
succeeds, performs no further write to the namespace record, and the
record holds exactly one entry for the name; moreover two fault-free
adds to an existing well-formed record commute, so each name's sorted
position does not depend on the order of the calls. -/
theorem c7_idempotent_add (w : World) (f₁ : SetAccountFaults) (id : String)
    (a : Account) (hinv : nsAccountsOK w id)
    (hok : (SetAccount w f₁ id a).1 = .ok ()) :
    (SetAccount (SetAccount w f₁ id a).2 ⟨none, none, none⟩ id a).1 =
      .ok () ∧
    (SetAccount (SetAccount w f₁ id a).2 ⟨none, none, none⟩ id a).2.nsStore =
      (SetAccount w f₁ id a).2.nsStore ∧
    (∃ n, Store.lookup
        (SetAccount (SetAccount w f₁ id a).2
          ⟨none, none, none⟩ id a).2.nsStore id = some n ∧
      n.Accounts.count a.Name = 1) ∧
    (∀ b : Account, ∀ w' : World, ∀ n₀ : Namespace,
      Store.lookup w'.nsStore id = some n₀ → accountsInv n₀.Accounts →
      Store.lookup (SetAccount (SetAccount w' ⟨none, none, none⟩ id a).2
          ⟨none, none, none⟩ id b).2.nsStore id =
        Store.lookup (SetAccount (SetAccount w' ⟨none, none, none⟩ id b).2
          ⟨none, none, none⟩ id a).2.nsStore id) := by
  obtain ⟨n₁, hl₁, hm₁⟩ := SetAccount_ok_member w f₁ id a hok
  have hinv₁ : nsAccountsOK (SetAccount w f₁ id a).2 id :=
    nsAccountsOK_set w f₁ id a hinv
  set w₁ := (SetAccount w f₁ id a).2 with hw₁
  have hg₂ : getNamespace
      { w₁ with acctStore := w₁.acctStore.put (formatAccount id a.Name) a }
      none id = .ok n₁ := by
    simp [getNamespace, Store.get, hl₁]
  refine ⟨?_, ?_, ?_, ?_⟩
  · simp [SetAccount, setAccount, Store.set, hg₂, hm₁]
  · simp [SetAccount, setAccount, Store.set, hg₂, hm₁]
  · refine ⟨n₁, ?_, ?_⟩
    · simp [SetAccount, setAccount, Store.set, hg₂, hm₁, hl₁]
    · exact List.count_eq_one_of_mem (hinv₁ n₁ hl₁).2 hm₁
  · intro b w' n₀ hl₀ hinv₀
    obtain ⟨-, hla⟩ := SetAccount_clean w' id a n₀ hl₀
    obtain ⟨-, hlb⟩ := SetAccount_clean w' id b n₀ hl₀
    obtain ⟨-, hlab⟩ := SetAccount_clean _ id b (addAccount n₀ a.Name) hla
    obtain ⟨-, hlba⟩ := SetAccount_clean _ id a (addAccount n₀ b.Name) hlb
    rw [hlab, hlba, addAccount_comm hinv₀]

/-- Witness for C2 at a concrete input: create "ns", add "b", add "a",
remove "b"; the observed list is ["a"], sorted and duplicate-free. -/
theorem c2_witness :
    ((CreateNamespace ⟨[], [], []⟩ ⟨none, none, none, none, none⟩
        "ns" "N").1 = .ok ()) ∧
    (GetNamespace (runOps "ns"
        (CreateNamespace ⟨[], [], []⟩ ⟨none, none, none, none, none⟩
          "ns" "N").2
        [.set ⟨none, none, none⟩ ⟨"b", "S", "", []⟩,
         .set ⟨none, none, none⟩ ⟨"a", "S", "", []⟩,
         .del ⟨none, none, none⟩ "b"]) none "ns" = .ok ⟨"N", ["a"]⟩) ∧
    (List.Sorted strLe (Namespace.mk "N" ["a"]).Accounts ∧
      (Namespace.mk "N" ["a"]).Accounts.Nodup) :=
  ⟨rfl, rfl,
   c2_sorted_invariant ⟨[], [], []⟩ ⟨none, none, none, none, none⟩ "ns" "N"
     [.set ⟨none, none, none⟩ ⟨"b", "S", "", []⟩,
      .set ⟨none, none, none⟩ ⟨"a", "S", "", []⟩,
      .del ⟨none, none, none⟩ "b"] ⟨"N", ["a"]⟩ rfl rfl⟩

/-- Witness for C7 at a concrete input: namespace "ns" with an empty
accounts list, account "alice" added twice. -/
theorem c7_witness :
    nsAccountsOK ⟨[("ns", ⟨"N", []⟩)], [], ["ns"]⟩ "ns" ∧
    (SetAccount ⟨[("ns", ⟨"N", []⟩)], [], ["ns"]⟩ ⟨none, none, none⟩ "ns"
        ⟨"alice", "S", "", []⟩).1 = .ok () ∧
    ((SetAccount (SetAccount ⟨[("ns", ⟨"N", []⟩)], [], ["ns"]⟩
        ⟨none, none, none⟩ "ns" ⟨"alice", "S", "", []⟩).2
        ⟨none, none, none⟩ "ns" ⟨"alice", "S", "", []⟩).1 = .ok () ∧
     (SetAccount (SetAccount ⟨[("ns", ⟨"N", []⟩)], [], ["ns"]⟩
        ⟨none, none, none⟩ "ns" ⟨"alice", "S", "", []⟩).2
        ⟨none, none, none⟩ "ns" ⟨"alice", "S", "", []⟩).2.nsStore =
       (SetAccount ⟨[("ns", ⟨"N", []⟩)], [], ["ns"]⟩
        ⟨none, none, none⟩ "ns" ⟨"alice", "S", "", []⟩).2.nsStore ∧
     (∃ n, Store.lookup
        (SetAccount (SetAccount ⟨[("ns", ⟨"N", []⟩)], [], ["ns"]⟩
          ⟨none, none, none⟩ "ns" ⟨"alice", "S", "", []⟩).2
          ⟨none, none, none⟩ "ns" ⟨"alice", "S", "", []⟩).2.nsStore "ns" =
        some n ∧ n.Accounts.count "alice" = 1) ∧
     (∀ b : Account, ∀ w' : World, ∀ n₀ : Namespace,
      Store.lookup w'.nsStore "ns" = some n₀ → accountsInv n₀.Accounts →
      Store.lookup (SetAccount (SetAccount w' ⟨none, none, none⟩ "ns"
          ⟨"alice", "S", "", []⟩).2 ⟨none, none, none⟩ "ns" b).2.nsStore
          "ns" =
        Store.lookup (SetAccount (SetAccount w' ⟨none, none, none⟩ "ns"
          b).2 ⟨none, none, none⟩ "ns"
          ⟨"alice", "S", "", []⟩).2.nsStore "ns")) := by
  have hinv : nsAccountsOK ⟨[("ns", ⟨"N", []⟩)], [], ["ns"]⟩ "ns" := by
    intro n hn
    have h : (some (Namespace.mk "N" []) : Option Namespace) = some n := hn
    obtain rfl := Option.some.inj h
    exact accountsInv_nil
  exact ⟨hinv, rfl,
    c7_idempotent_add ⟨[("ns", ⟨"N", []⟩)], [], ["ns"]⟩ ⟨none, none, none⟩
      "ns" ⟨"alice", "S", "", []⟩ hinv rfl⟩

/-! ## Claim C3 -/

theorem Store.remove_eq_of_lookup_none {α} (s : Store α) (k : String)
    (h : s.lookup k = none) : s.remove k = s := by
  induction s with
  | nil => rfl
  | cons a s ih =>
      rw [Store.lookup_cons] at h
      by_cases ha : a.1 = k
      · rw [if_pos ha] at h; cases h
      · rw [if_neg ha] at h
        unfold remove at *
        rw [List.filter_cons_of_pos (by simp [ha]), ih h]

/-- The fault-free account-deletion loop removes every listed account
key (an absent key is tolerated and was already absent) and reports
success. -/
theorem deleteAccountsLoop_nofault (id : String) :
    ∀ (accts : List String) (w : World),
    deleteAccountsLoop w (fun _ => none) id accts =
      (.ok (),
        { w with
            acctStore := (accts.foldl
              (fun s a => Store.remove s (formatAccount id a))
              w.acctStore) }) := by
  intro accts
  induction accts with
  | nil => intro w; rfl
  | cons a rest ih =>
      intro w
      cases hl : Store.lookup w.acctStore (formatAccount id a) with
      | some v =>
          simp only [deleteAccountsLoop, deleteAccount, Store.del, hl,
            List.foldl_cons]
          exact ih _
      | none =>
          simp only [deleteAccountsLoop, deleteAccount, Store.del, hl,
            List.foldl_cons]
          rw [Store.remove_eq_of_lookup_none _ _ hl]
          simpa [errorIs] using ih w

theorem formatAccount_ne (id : String) :
    formatAccount id "a" ≠ formatAccount id "b" := by
  intro h
  have hd := congrArg String.data h
  simp only [formatAccount, String.data_append] at hd
  have hab := List.append_cancel_left hd
  exact absurd hab (by decide)

/-- C3: deleting a namespace whose record lists accounts ["a","b"]
removes the id from the Config Index, deletes the record, and deletes
both account records (tolerating an absent account record); a genuine
failure deleting one account is surfaced while the record and the index
entry are already gone; an absent record after the index update is
success. -/
theorem c3_cascading_delete (w : World) (id nm : String)
    (hn : Store.lookup w.nsStore id = some ⟨nm, ["a", "b"]⟩)
    (hidx : id ∈ w.cfgNamespaces) :
    ((deleteNamespace w ⟨none, none, none, none, fun _ => none⟩ id).1 =
        .ok () ∧
     (deleteNamespace w ⟨none, none, none, none, fun _ => none⟩
        id).2.cfgNamespaces = w.cfgNamespaces.filter (fun s => s ≠ id) ∧
     Store.lookup (deleteNamespace w ⟨none, none, none, none,
        fun _ => none⟩ id).2.nsStore id = none ∧
     Store.lookup (deleteNamespace w ⟨none, none, none, none,
        fun _ => none⟩ id).2.acctStore (formatAccount id "a") = none ∧
     Store.lookup (deleteNamespace w ⟨none, none, none, none,
        fun _ => none⟩ id).2.acctStore (formatAccount id "b") = none) ∧
    (∀ eA : Err, errorIs eA .storeNotFound = false →
      (deleteNamespace w ⟨none, none, none, none,
          fun x => if x = "a" then some eA else none⟩ id).1 =
        .error (.wrap ("failed to delete account " ++ "a") eA) ∧
      Store.lookup (deleteNamespace w ⟨none, none, none, none,
          fun x => if x = "a" then some eA else none⟩ id).2.nsStore id =
        none ∧
      id ∉ (deleteNamespace w ⟨none, none, none, none,
          fun x => if x = "a" then some eA else none⟩
          id).2.cfgNamespaces) ∧
    (∀ w' : World, Store.lookup w'.nsStore id = none →
      (deleteNamespace w' ⟨none, none, none, none, fun _ => none⟩ id).1 =
        .ok ()) := by
  refine ⟨?_, ?_, ?_⟩
  · have hrun : deleteNamespace w ⟨none, none, none, none,
        fun _ => none⟩ id =
        (.ok (),
          ⟨Store.remove w.nsStore id,
           Store.remove (Store.remove w.acctStore (formatAccount id "a"))
             (formatAccount id "b"),
           w.cfgNamespaces.filter (fun s => s ≠ id)⟩) := by
      simp [deleteNamespace, loadConfigFile, hidx, saveConfigFile,
        getNamespace, Store.get, hn, Store.del, deleteAccountsLoop_nofault]
    rw [hrun]
    refine ⟨rfl, rfl, Store.lookup_remove_self _ _, ?_, ?_⟩
    · rw [Store.lookup_remove_ne _ (formatAccount_ne id),
        Store.lookup_remove_self]
    · exact Store.lookup_remove_self _ _
  · intro eA heA
    have hrun : deleteNamespace w ⟨none, none, none, none,
        fun x => if x = "a" then some eA else none⟩ id =
        (.error (.wrap ("failed to delete account " ++ "a") eA),
          ⟨Store.remove w.nsStore id, w.acctStore,
           w.cfgNamespaces.filter (fun s => s ≠ id)⟩) := by
      simp [deleteNamespace, loadConfigFile, hidx, saveConfigFile,
        getNamespace, Store.get, hn, Store.del, deleteAccountsLoop,
        deleteAccount, errorIs, heA, errUnwrap]
    rw [hrun]
    refine ⟨rfl, Store.lookup_remove_self _ _, ?_⟩
    simp [List.mem_filter]
  · intro w' hw'
    by_cases hidx' : id ∈ w'.cfgNamespaces <;>
      simp [deleteNamespace, loadConfigFile, hidx', saveConfigFile,
        getNamespace, Store.get, hw', errorIs]

/-- Witness for C3 at a concrete input: namespace "ns" listing accounts
["a","b"], both account records present, genuine delete failure io 7. -/
theorem c3_witness :
    (Store.lookup (World.mk [("ns", ⟨"N", ["a", "b"]⟩)]
        [("ns/a", ⟨"a", "S", "", []⟩), ("ns/b", ⟨"b", "S", "", []⟩)]
        ["ns"]).nsStore "ns" = some ⟨"N", ["a", "b"]⟩ ∧
     "ns" ∈ (World.mk [("ns", ⟨"N", ["a", "b"]⟩)]
        [("ns/a", ⟨"a", "S", "", []⟩), ("ns/b", ⟨"b", "S", "", []⟩)]
        ["ns"]).cfgNamespaces) ∧
    (((deleteNamespace (World.mk [("ns", ⟨"N", ["a", "b"]⟩)]
        [("ns/a", ⟨"a", "S", "", []⟩), ("ns/b", ⟨"b", "S", "", []⟩)]
        ["ns"]) ⟨none, none, none, none, fun _ => none⟩ "ns").1 =
        .ok () ∧
     (deleteNamespace (World.mk [("ns", ⟨"N", ["a", "b"]⟩)]
        [("ns/a", ⟨"a", "S", "", []⟩), ("ns/b", ⟨"b", "S", "", []⟩)]
        ["ns"]) ⟨none, none, none, none,
        fun _ => none⟩ "ns").2.cfgNamespaces =
       (World.mk [("ns", ⟨"N", ["a", "b"]⟩)]
        [("ns/a", ⟨"a", "S", "", []⟩), ("ns/b", ⟨"b", "S", "", []⟩)]
        ["ns"]).cfgNamespaces.filter (fun s => s ≠ "ns") ∧
     Store.lookup (deleteNamespace (World.mk [("ns", ⟨"N", ["a", "b"]⟩)]
        [("ns/a", ⟨"a", "S", "", []⟩), ("ns/b", ⟨"b", "S", "", []⟩)]
        ["ns"]) ⟨none, none, none, none,
        fun _ => none⟩ "ns").2.nsStore "ns" = none ∧
     Store.lookup (deleteNamespace (World.mk [("ns", ⟨"N", ["a", "b"]⟩)]
        [("ns/a", ⟨"a", "S", "", []⟩), ("ns/b", ⟨"b", "S", "", []⟩)]
        ["ns"]) ⟨none, none, none, none,
        fun _ => none⟩ "ns").2.acctStore (formatAccount "ns" "a") = none ∧
     Store.lookup (deleteNamespace (World.mk [("ns", ⟨"N", ["a", "b"]⟩)]
        [("ns/a", ⟨"a", "S", "", []⟩), ("ns/b", ⟨"b", "S", "", []⟩)]
        ["ns"]) ⟨none, none, none, none,
        fun _ => none⟩ "ns").2.acctStore (formatAccount "ns" "b") = none) ∧
    (∀ eA : Err, errorIs eA .storeNotFound = false →
      (deleteNamespace (World.mk [("ns", ⟨"N", ["a", "b"]⟩)]
        [("ns/a", ⟨"a", "S", "", []⟩), ("ns/b", ⟨"b", "S", "", []⟩)]
        ["ns"]) ⟨none, none, none, none,
          fun x => if x = "a" then some eA else none⟩ "ns").1 =
        .error (.wrap ("failed to delete account " ++ "a") eA) ∧
      Store.lookup (deleteNamespace (World.mk [("ns", ⟨"N", ["a", "b"]⟩)]
        [("ns/a", ⟨"a", "S", "", []⟩), ("ns/b", ⟨"b", "S", "", []⟩)]
        ["ns"]) ⟨none, none, none, none,
          fun x => if x = "a" then some eA else none⟩ "ns").2.nsStore
        "ns" = none ∧
      "ns" ∉ (deleteNamespace (World.mk [("ns", ⟨"N", ["a", "b"]⟩)]
        [("ns/a", ⟨"a", "S", "", []⟩), ("ns/b", ⟨"b", "S", "", []⟩)]
        ["ns"]) ⟨none, none, none, none,
          fun x => if x = "a" then some eA else none⟩
          "ns").2.cfgNamespaces) ∧
    (∀ w' : World, Store.lookup w'.nsStore "ns" = none →
      (deleteNamespace w' ⟨none, none, none, none, fun _ => none⟩
        "ns").1 = .ok ())) :=
  ⟨⟨rfl, by decide⟩,
   c3_cascading_delete (World.mk [("ns", ⟨"N", ["a", "b"]⟩)]
     [("ns/a", ⟨"a", "S", "", []⟩), ("ns/b", ⟨"b", "S", "", []⟩)]
     ["ns"]) "ns" "N" rfl (by decide)⟩

end Authenticator
